import Mathlib

/-!
Verification of `demo_cases/parametric_potential_flow/potential_flow_2d.py`:
a 2D parametric potential-flow configuration for a neural PDE solver.
The development shallowly embeds the sympy expression trees, the
boundary/interior sub-domain records built in `PotentialTrain.__init__`,
the fixed-parameter sampling rule for the angle of attack, and the solver
binding, and proves or refutes the frozen claims about them.
-/

namespace PotentialFlow2D

/-- Shallow embedding of the sympy expression trees used by the source:
rational constants, symbols, an applied undefined function
(`Function('phi')(x, y, alpha)`), arithmetic, `sin`/`cos`, and an
unevaluated `Derivative` node. -/
inductive Expr where
  | const : ℚ → Expr
  | var : String → Expr
  | func : String → List String → Expr
  | add : Expr → Expr → Expr
  | mul : Expr → Expr → Expr
  | div : Expr → Expr → Expr
  | sin : Expr → Expr
  | cos : Expr → Expr
  | deriv : Expr → String → Expr
deriving DecidableEq

/-- Whether an expression syntactically depends on the symbol `v`
(sympy `expr.has(Symbol(v))`). -/
def Expr.dependsOn (v : String) : Expr → Bool
  | .const _ => false
  | .var s => s == v
  | .func _ args => args.contains v
  | .add a b => a.dependsOn v || b.dependsOn v
  | .mul a b => a.dependsOn v || b.dependsOn v
  | .div a b => a.dependsOn v || b.dependsOn v
  | .sin a => a.dependsOn v
  | .cos a => a.dependsOn v
  | .deriv a _ => a.dependsOn v

/-- Symbolic differentiation with respect to the symbol `v`, mirroring sympy
`diff`: the derivative of an applied undefined function with respect to one
of its arguments stays unevaluated as a `Derivative` node; sum, product and
quotient rules; chain rule through `sin` and `cos`. -/
def Expr.diff (v : String) : Expr → Expr
  | .const _ => .const 0
  | .var s => if s == v then .const 1 else .const 0
  | .func f args => if args.contains v then .deriv (.func f args) v else .const 0
  | .add a b => .add (a.diff v) (b.diff v)
  | .mul a b => .add (.mul (a.diff v) b) (.mul a (b.diff v))
  | .div a b =>
      .div (.add (.mul (a.diff v) b) (.mul (.const (-1)) (.mul a (b.diff v)))) (.mul b b)
  | .sin a => .mul (.cos a) (a.diff v)
  | .cos a => .mul (.mul (.const (-1)) (.sin a)) (a.diff v)
  | .deriv a s => if (Expr.deriv a s).dependsOn v then .deriv (.deriv a s) v else .const 0

/-- Numeric evaluation of an expression under an environment for the symbols.
`func` and `deriv` nodes denote an undefined function and its unevaluated
derivatives; they have no numeric value of their own and evaluate to the junk
value 0 — evaluation is only ever applied to expressions in which these nodes
have been substituted away. -/
noncomputable def Expr.eval (env : String → ℝ) : Expr → ℝ
  | .const q => (q : ℝ)
  | .var s => env s
  | .func _ _ => 0
  | .add a b => a.eval env + b.eval env
  | .mul a b => a.eval env * b.eval env
  | .div a b => a.eval env / b.eval env
  | .sin a => Real.sin (a.eval env)
  | .cos a => Real.cos (a.eval env)
  | .deriv _ _ => 0

/-- Substitute the concrete field `body` for the undefined function `phi`
and carry out the pending `Derivative` nodes by actual differentiation —
sympy `expr.subs(phi, body).doit()`. -/
def Expr.substPhi (body : Expr) : Expr → Expr
  | .const q => .const q
  | .var s => .var s
  | .func f args => if f == "phi" then body else .func f args
  | .add a b => .add (Expr.substPhi body a) (Expr.substPhi body b)
  | .mul a b => .mul (Expr.substPhi body a) (Expr.substPhi body b)
  | .div a b => .div (Expr.substPhi body a) (Expr.substPhi body b)
  | .sin a => .sin (Expr.substPhi body a)
  | .cos a => .cos (Expr.substPhi body a)
  | .deriv a s => (Expr.substPhi body a).diff s

/-- The potential `phi = Function('phi')(x, y, alpha)`: an undefined symbolic
function of exactly the three independent variables `x`, `y`, `alpha`. -/
def phiE : Expr := Expr.func "phi" ["x", "y", "alpha"]

/-- The `equations` mapping built by `Poisson_2D.__init__`:
`u = phi.diff(x)`, `v = phi.diff(y)`,
`Poisson_2D = phi.diff(x).diff(x) + phi.diff(y).diff(y)`. -/
def Poisson_2D_equations : List (String × Expr) :=
  [("u", phiE.diff "x"),
   ("v", phiE.diff "y"),
   ("Poisson_2D", Expr.add ((phiE.diff "x").diff "x") ((phiE.diff "y").diff "y"))]

/-- The `Poisson_2D` residual entry of the equations mapping. -/
def poissonResidual : Expr :=
  (List.lookup "Poisson_2D" Poisson_2D_equations).getD (Expr.const 0)

/-- The quadratic trial field `phi = a*x^2 + b*y^2`. -/
def phiQuad (a b : ℚ) : Expr :=
  Expr.add (Expr.mul (Expr.const a) (Expr.mul (Expr.var "x") (Expr.var "x")))
    (Expr.mul (Expr.const b) (Expr.mul (Expr.var "y") (Expr.var "y")))

/-- Domain constant `obstacle_length = 0.10` from the source. -/
def obstacle_length : ℚ := 1 / 10

/-- Domain constant `height = 6*obstacle_length`. -/
def height : ℚ := 6 * obstacle_length

/-- Domain constant `width = 6*obstacle_length`. -/
def width : ℚ := 6 * obstacle_length

/-- Free-stream x-velocity target `u_x = 10*cos(alpha)`. -/
def u_x : Expr := Expr.mul (Expr.const 10) (Expr.cos (Expr.var "alpha"))

/-- Free-stream y-velocity target `u_y = 10*sin(alpha)`. -/
def u_y : Expr := Expr.mul (Expr.const 10) (Expr.sin (Expr.var "alpha"))

/-- The wake-line blending factor `l(x) = x/(3*obstacle_length)`. -/
def wakeBlend : Expr := Expr.div (Expr.var "x") (Expr.const (3 * obstacle_length))

/-- The wake-line target for `v`: `u_y*l(x)`. -/
def wake_v : Expr := Expr.mul u_y wakeBlend

/-- A `lambda_sympy` weight entry: either a numeric weight or the geometry's
signed-distance function `geo.sdf`. -/
inductive Weight where
  | num : ℚ → Weight
  | sdf : Weight
deriving DecidableEq

/-- A sympy relational used as a `criteria` argument: `Eq(a, b)` or `Ge(a, b)`. -/
inductive Rel where
  | eq : Expr → Expr → Rel
  | ge : Expr → Expr → Rel
deriving DecidableEq

/-- Satisfaction of a criteria relational at a point environment. -/
def Rel.holds (env : String → ℝ) : Rel → Prop
  | .eq a b => a.eval env = b.eval env
  | .ge a b => b.eval env ≤ a.eval env

/-- A record of one `boundary_bc(...)` call: target outputs, sample density,
optional selection criteria, weights, and the `fixed_var` flag. -/
structure BoundaryBC where
  outvar_sympy : List (String × Expr)
  batch_size_per_area : ℕ
  criteria : Option Rel
  lambda_sympy : List (String × Weight)
  fixed_var : Bool
deriving DecidableEq

/-- A record of one `interior_bc(...)` call: target residuals, sampling bounds
per coordinate, weights, sample density, and the `fixed_var` flag. -/
structure InteriorBC where
  outvar_sympy : List (String × Expr)
  bounds : List (String × (ℚ × ℚ))
  lambda_sympy : List (String × Weight)
  batch_size_per_area : ℕ
  fixed_var : Bool
deriving DecidableEq

/-- The `inletBC` sub-domain: far-field velocity on the left wall `x = -width/2`. -/
def inletBC : BoundaryBC :=
  { outvar_sympy := [("u", u_x), ("v", u_y)]
    batch_size_per_area := 250
    criteria := some (Rel.eq (Expr.var "x") (Expr.const (-(width / 2))))
    lambda_sympy := []
    fixed_var := false }

/-- The `outletBC` sub-domain: far-field velocity where `y/height + x/width >= 1/2`. -/
def outletBC : BoundaryBC :=
  { outvar_sympy := [("u", u_x), ("v", u_y)]
    batch_size_per_area := 500
    criteria := some (Rel.ge
      (Expr.add (Expr.div (Expr.var "y") (Expr.const height))
        (Expr.div (Expr.var "x") (Expr.const width)))
      (Expr.const (1 / 2)))
    lambda_sympy := []
    fixed_var := false }

/-- The `bottomWall` sub-domain: far-field velocity on the wall `y = -height/2`. -/
def bottomWall : BoundaryBC :=
  { outvar_sympy := [("u", u_x), ("v", u_y)]
    batch_size_per_area := 250
    criteria := some (Rel.eq (Expr.var "y") (Expr.const (-(height / 2))))
    lambda_sympy := []
    fixed_var := false }

/-- The `obstacleLine` sub-domain: `u = u_x`, `v = 0` on the obstacle line,
with weight 100 on both terms. -/
def obstacleLine : BoundaryBC :=
  { outvar_sympy := [("u", u_x), ("v", Expr.const 0)]
    batch_size_per_area := 500
    criteria := none
    lambda_sympy := [("lambda_u", Weight.num 100), ("lambda_v", Weight.num 100)]
    fixed_var := false }

/-- The `wakeLine` sub-domain: `u = u_x`, `v = u_y*l(x)` on the wake line,
with weight 100 on both terms. -/
def wakeLine : BoundaryBC :=
  { outvar_sympy := [("u", u_x), ("v", wake_v)]
    batch_size_per_area := 500
    criteria := none
    lambda_sympy := [("lambda_u", Weight.num 100), ("lambda_v", Weight.num 100)]
    fixed_var := false }

/-- The `interior` sub-domain: `Poisson_2D = 0` over the full rectangle bounds,
weighted by `geo.sdf`. -/
def interior : InteriorBC :=
  { outvar_sympy := [("Poisson_2D", Expr.const 0)]
    bounds := [("x", (-(width / 2), width / 2)), ("y", (-(height / 2), height / 2))]
    lambda_sympy := [("lambda_Poisson_2D", Weight.sdf)]
    batch_size_per_area := 2000
    fixed_var := false }

/-- The `neighbourhood` sub-domain: `Poisson_2D = 0` over a tighter box around
the obstacle, weighted by `geo.sdf`. -/
def neighbourhood : InteriorBC :=
  { outvar_sympy := [("Poisson_2D", Expr.const 0)]
    bounds := [("x", (-(height / 3), height / 3)), ("y", (-(height / 8), height / 8))]
    lambda_sympy := [("lambda_Poisson_2D", Weight.sdf)]
    batch_size_per_area := 2000
    fixed_var := false }

/-- A named sub-domain added to the training domain: a boundary or interior
condition record. -/
inductive SubDomain where
  | boundary : BoundaryBC → SubDomain
  | interior : InteriorBC → SubDomain
deriving DecidableEq

/-- Whether a sub-domain is an interior (PDE-residual) sub-domain. -/
def SubDomain.isInteriorSub : SubDomain → Bool
  | .boundary _ => false
  | .interior _ => true

/-- The training domain built by `PotentialTrain.__init__`: the seven named
sub-domains in the order they are added. -/
def PotentialTrain_domains : List (String × SubDomain) :=
  [("Inlet", SubDomain.boundary inletBC),
   ("Outlet", SubDomain.boundary outletBC),
   ("BottomWall", SubDomain.boundary bottomWall),
   ("obstacleLine", SubDomain.boundary obstacleLine),
   ("wakeLine", SubDomain.boundary wakeLine),
   ("Interior", SubDomain.interior interior),
   ("Neighbourhood", SubDomain.interior neighbourhood)]

/-- Lower end of the admissible range of `alpha`: `-np.pi*10/180`. -/
noncomputable def alphaLo : ℝ := -(Real.pi * 10 / 180)

/-- Upper end of the admissible range of `alpha`: `np.pi*10/180`. -/
noncomputable def alphaHi : ℝ := Real.pi * 10 / 180

/-- Model of one call to `np.random.uniform(lo, hi)`: the pseudo-random
source supplies `u` uniformly in `[0, 1]` and the draw is the affine image
`lo + u*(hi - lo)` of it in `[lo, hi]`. Each call to the sampling rule
consumes a fresh `u`. -/
noncomputable def npRandomUniform (lo hi u : ℝ) : ℝ := lo + u * (hi - lo)

/-- Model of `np.full((batch_size, 1), value)`: a batch of identical values. -/
def npFull (batch_size : ℕ) (value : ℝ) : List ℝ := List.replicate batch_size value

/-- The `fixed_param_range` sampling rule for `alpha`:
`lambda batch_size: np.full((batch_size, 1), np.random.uniform(-np.pi*10/180, np.pi*10/180))`.
The argument `u` is the uniform `[0, 1]` source consumed by the single
`np.random.uniform` call made during this invocation of the rule; a separate
invocation of the rule (as happens when a distinct sub-domain's parameter
range is sampled) consumes its own fresh `u`. -/
noncomputable def fixed_param_range_alpha (u : ℝ) (batch_size : ℕ) : List ℝ :=
  npFull batch_size (npRandomUniform alphaLo alphaHi u)

/-- Modelled from the spec: the rigid rotation applied by the external
`modulus.sympy_utils.geometry_2d` primitives' `rotate(angle)` (not part of
this repository). The spec's end-to-end scenario fixes the convention:
rotating `(0, 0)-(0, 0.10)` by 90 degrees yields `(0, 0)-(-0.10, 0)`,
i.e. the counter-clockwise rotation about the origin. -/
noncomputable def rotatePoint (theta : ℝ) (p : ℝ × ℝ) : ℝ × ℝ :=
  (Real.cos theta * p.1 - Real.sin theta * p.2,
   Real.sin theta * p.1 + Real.cos theta * p.2)

/-- The names bound by the import statements at the top of the module. -/
def importedNames : List String :=
  ["Symbol", "Eq", "Ge", "Abs", "Function", "Number", "sin", "cos",
   "PDES", "Variables", "time", "Solver", "TrainDomain", "ValidationDomain",
   "Validation", "parabola", "Rectangle", "Line", "csv_to_dict",
   "NavierStokes", "IntegralContinuity", "ModulusController",
   "np", "math", "sys"]

/-- The names defined at top level of the module itself. -/
def moduleTopLevelNames : List String :=
  ["get_angle", "Poisson_2D", "obstacle_length", "height", "width",
   "rec", "obstacle", "wake", "geo", "x", "y", "alpha",
   "param_ranges", "fixed_param_range",
   "PotentialTrain", "PotentialInference", "PotentialSolver"]

/-- Every name visible at module top level: imports plus own definitions. -/
def moduleNames : List String := importedNames ++ moduleTopLevelNames

/-- The source line heading the `PotentialInference` class (line 166),
verbatim. Its final character is the fullwidth semicolon U+FF1B, not `:`. -/
def inferenceHeaderLine : String := "class PotentialInference(InferenceDomain)；"

/-- The source line building the `Inference(...)` object (line 169), verbatim. -/
def inferenceBodyLine : String :=
  "        interior = Inference(geo.sample_interior(1e6, bounds=\x7bx: (-width / 2, width / 2), y: (-height / 2, height / 2)\x7d, [\x27u\x27,\x27v\x27,\x27phi\x27])"

/-- The source line of the `super(...)` call in `PotentialSolver.__init__`
(line 177), verbatim. -/
def solverSuperLine : String := "        super(LDCSolver, self).__init__(**config)"

/-- Whether the string contains the given character. -/
def containsChar (s : String) (c : Char) : Bool := s.data.contains c

/-- Number of opening minus closing round parentheses in a string; a parsable
single-line call expression has excess 0. -/
def parenExcess (s : String) : Int :=
  (s.data.count '(' : Int) - (s.data.count ')' : Int)

/-- Whether `pat` occurs at the head of `s`. -/
def startsWithChars : List Char → List Char → Bool
  | [], _ => true
  | _ :: _, [] => false
  | a :: pat, b :: s => a == b && startsWithChars pat s

/-- Whether `pat` occurs contiguously anywhere in `s`. -/
def hasSubChars (pat : List Char) : List Char → Bool
  | [] => startsWithChars pat []
  | b :: s => startsWithChars pat (b :: s) || hasSubChars pat s

/-- Whether the string `pat` occurs as a substring of `s`. -/
def containsSub (s pat : String) : Bool := hasSubChars pat.data s.data

/-- A declared network node: `self.arch.make_node(name=..., inputs=..., outputs=...)`. -/
structure NetNode where
  name : String
  inputs : List String
  outputs : List String
deriving DecidableEq

/-- A configuration default value: a string or a number. -/
inductive ConfigVal where
  | str : String → ConfigVal
  | num : ℕ → ConfigVal
deriving DecidableEq

/-- The solver binding declared by the `PotentialSolver` class: its
train domain, the name of its inference-domain class, the attached equation
system, the declared networks, and the `update_defaults` record. -/
structure SolverSpec where
  train_domain : List (String × SubDomain)
  inference_domain_name : String
  equations : List (String × Expr)
  nets : List NetNode
  defaults : List (String × ConfigVal)

/-- The `PotentialSolver` binding from the source: `train_domain = PotentialTrain`,
`inference_domain = PotentialInference`, equations `Poisson_2D().make_node()`,
one network `flow_net` with inputs `x, y, alpha` and output `phi`, and the
`update_defaults` entries. -/
def PotentialSolver : SolverSpec :=
  { train_domain := PotentialTrain_domains
    inference_domain_name := "PotentialInference"
    equations := Poisson_2D_equations
    nets := [{ name := "flow_net", inputs := ["x", "y", "alpha"], outputs := ["phi"] }]
    defaults :=
      [("network_dir", ConfigVal.str "./network_checkpoint_potential_flow_2d"),
       ("decay_steps", ConfigVal.num 4000),
       ("max_steps", ConfigVal.num 400000),
       ("layer_size", ConfigVal.num 100),
       ("nr_layer", ConfigVal.num 2)] }

/-- A point environment assigning values to the symbols `x`, `y`, `alpha`
(and 0 to anything else). -/
def envXY (xv yv av : ℝ) : String → ℝ :=
  fun s => if s = "x" then xv else if s = "y" then yv else if s = "alpha" then av else 0

/-- Claim C1: the `equations` mapping of every `Poisson_2D` instantiation
contains `u` equal to the symbolic derivative of `phi` with respect to `x`,
`v` equal to the derivative with respect to `y`, and `Poisson_2D` equal to
the sum of the two second derivatives, where `phi` is the undefined symbolic
function of exactly the independent variables `x`, `y`, `alpha`. -/
theorem C1_poisson_equations :
    phiE = Expr.func "phi" ["x", "y", "alpha"] ∧
    List.lookup "u" Poisson_2D_equations = some (Expr.deriv phiE "x") ∧
    List.lookup "v" Poisson_2D_equations = some (Expr.deriv phiE "y") ∧
    List.lookup "Poisson_2D" Poisson_2D_equations =
      some (Expr.add (Expr.deriv (Expr.deriv phiE "x") "x")
        (Expr.deriv (Expr.deriv phiE "y") "y")) := by
  refine ⟨rfl, ?_, ?_, ?_⟩ <;> rfl

/-- Claim C2: the module cannot load: the `PotentialInference` class header
ends in the fullwidth semicolon U+FF1B instead of `:`, the `Inference(...)`
line has one more opening than closing parenthesis, and the names
`LDCSolver`, `InferenceDomain` and `Inference` that the two classes
reference are neither imported nor defined anywhere in the module, so
constructing `PotentialSolver` or `PotentialInference` can only raise an
error. -/
theorem C2_module_load_fails :
    containsChar inferenceHeaderLine '；' = true ∧
    containsChar inferenceHeaderLine ':' = false ∧
    parenExcess inferenceBodyLine = 1 ∧
    containsSub solverSuperLine "LDCSolver" = true ∧
    moduleNames.contains "LDCSolver" = false ∧
    containsSub inferenceHeaderLine "InferenceDomain" = true ∧
    moduleNames.contains "InferenceDomain" = false ∧
    containsSub inferenceBodyLine "Inference(" = true ∧
    moduleNames.contains "Inference" = false := by
  decide

/-- Claim C5 counterexample: the `Interior` and `Neighbourhood` sub-domains
use the same sample density — `batch_size_per_area` is 2000 for both — so the
claim's statement that they use different sample densities is false. -/
theorem C5_counterexample :
    interior.batch_size_per_area = neighbourhood.batch_size_per_area ∧
    interior.batch_size_per_area = 2000 ∧
    neighbourhood.batch_size_per_area = 2000 :=
  ⟨rfl, rfl, rfl⟩

/-- Claim C5 amended: the training domain contains exactly two interior
sub-domains, `Interior` and `Neighbourhood`, both enforcing the residual
`Poisson_2D = 0` weighted by the rectangle's signed-distance function, one
over the full rectangle bounds and one over a strictly tighter box around
the obstacle; both use the same sample density `batch_size_per_area = 2000`. -/
theorem C5_amended :
    PotentialTrain_domains.filter (fun p => p.2.isInteriorSub) =
      [("Interior", SubDomain.interior interior),
       ("Neighbourhood", SubDomain.interior neighbourhood)] ∧
    interior.outvar_sympy = [("Poisson_2D", Expr.const 0)] ∧
    neighbourhood.outvar_sympy = [("Poisson_2D", Expr.const 0)] ∧
    interior.lambda_sympy = [("lambda_Poisson_2D", Weight.sdf)] ∧
    neighbourhood.lambda_sympy = [("lambda_Poisson_2D", Weight.sdf)] ∧
    interior.bounds = [("x", (-(width / 2), width / 2)), ("y", (-(height / 2), height / 2))] ∧
    neighbourhood.bounds =
      [("x", (-(height / 3), height / 3)), ("y", (-(height / 8), height / 8))] ∧
    interior.batch_size_per_area = 2000 ∧
    neighbourhood.batch_size_per_area = 2000 ∧
    -(width / 2) < -(height / 3) ∧ (height / 3 : ℚ) < width / 2 ∧
    -(height / 2) < -(height / 8) ∧ (height / 8 : ℚ) < height / 2 := by
  refine ⟨rfl, rfl, rfl, rfl, rfl, rfl, rfl, rfl, rfl, ?_, ?_, ?_, ?_⟩ <;>
    norm_num [width, height, obstacle_length]

/-- Claim C7: the `Outlet` sub-domain selects boundary points by the criterion
`y/height + x/width >= 1/2`; the corner `(width/2, height/2)` satisfies it and
the corner `(-width/2, -height/2)` does not. -/
theorem C7_outlet_criterion :
    List.lookup "Outlet" PotentialTrain_domains = some (SubDomain.boundary outletBC) ∧
    outletBC.criteria = some (Rel.ge
      (Expr.add (Expr.div (Expr.var "y") (Expr.const height))
        (Expr.div (Expr.var "x") (Expr.const width)))
      (Expr.const (1 / 2))) ∧
    Rel.holds (envXY ((width : ℝ) / 2) ((height : ℝ) / 2) 0)
      (Rel.ge (Expr.add (Expr.div (Expr.var "y") (Expr.const height))
        (Expr.div (Expr.var "x") (Expr.const width))) (Expr.const (1 / 2))) ∧
    ¬ Rel.holds (envXY (-((width : ℝ) / 2)) (-((height : ℝ) / 2)) 0)
      (Rel.ge (Expr.add (Expr.div (Expr.var "y") (Expr.const height))
        (Expr.div (Expr.var "x") (Expr.const width))) (Expr.const (1 / 2))) := by
  refine ⟨rfl, rfl, ?_, ?_⟩ <;>
    norm_num [Rel.holds, Expr.eval, envXY, width, height, obstacle_length]

/-- Claim C8: the `obstacleLine` sub-domain sets the target `v = 0` and the
target `u` to the free-stream x-component `10*cos(alpha)`, and weights both
the `u` and the `v` term by 100. -/
theorem C8_obstacle_targets :
    List.lookup "obstacleLine" PotentialTrain_domains =
      some (SubDomain.boundary obstacleLine) ∧
    obstacleLine.outvar_sympy = [("u", u_x), ("v", Expr.const 0)] ∧
    obstacleLine.lambda_sympy = [("lambda_u", Weight.num 100), ("lambda_v", Weight.num 100)] ∧
    (∀ env : String → ℝ, Expr.eval env u_x = 10 * Real.cos (env "alpha")) ∧
    (∀ env : String → ℝ, Expr.eval env (Expr.const 0) = 0) := by
  refine ⟨rfl, rfl, rfl, ?_, ?_⟩ <;> intro env <;> norm_num [Expr.eval, u_x]

/-- Claim C10: `PotentialSolver` declares exactly one learned function, named
`flow_net`, with inputs `x, y, alpha` and output `phi`, attaches the
`Poisson_2D` equation system, declares `PotentialTrain` as its train domain
and `PotentialInference` as its inference domain, and its `update_defaults`
sets the five listed configuration defaults. -/
theorem C10_solver_binding :
    PotentialSolver.nets =
      [{ name := "flow_net", inputs := ["x", "y", "alpha"], outputs := ["phi"] }] ∧
    PotentialSolver.nets.length = 1 ∧
    PotentialSolver.equations = Poisson_2D_equations ∧
    PotentialSolver.train_domain = PotentialTrain_domains ∧
    PotentialSolver.inference_domain_name = "PotentialInference" ∧
    List.lookup "network_dir" PotentialSolver.defaults =
      some (ConfigVal.str "./network_checkpoint_potential_flow_2d") ∧
    List.lookup "decay_steps" PotentialSolver.defaults = some (ConfigVal.num 4000) ∧
    List.lookup "max_steps" PotentialSolver.defaults = some (ConfigVal.num 400000) ∧
    List.lookup "layer_size" PotentialSolver.defaults = some (ConfigVal.num 100) ∧
    List.lookup "nr_layer" PotentialSolver.defaults = some (ConfigVal.num 2) := by
  refine ⟨rfl, rfl, rfl, rfl, rfl, ?_, ?_, ?_, ?_, ?_⟩ <;> rfl

/-- Claim C3 counterexample: the sampling rule draws a fresh uniform value at
every invocation, and each sub-domain's `param_ranges` entry is sampled by its
own invocation; two invocations whose pseudo-random draws are 0 and 1 return
different alpha batches, so the alpha values used by distinct sub-domains
within one training step are not identical in general. -/
theorem C3_counterexample :
    fixed_param_range_alpha 0 2 ≠ fixed_param_range_alpha 1 2 := by
  have hpi := Real.pi_pos
  intro h
  have hh := congrArg (fun l => l.headD 0) h
  simp [fixed_param_range_alpha, npFull, npRandomUniform, alphaLo, alphaHi] at hh
  nlinarith

/-- Claim C3 amended: for every batch size `n`, one invocation of the
fixed-parameter sampling rule for alpha returns a batch of `n` values all
identical to a single uniform draw from `[-pi*10/180, pi*10/180]`; distinct
sub-domains sample their parameter ranges by distinct invocations of the
rule, each consuming its own draw, so their alpha values need not coincide. -/
theorem C3_per_invocation (u : ℝ) (h0 : 0 ≤ u) (h1 : u ≤ 1) (n : ℕ) :
    fixed_param_range_alpha u n = List.replicate n (npRandomUniform alphaLo alphaHi u) ∧
    alphaLo ≤ npRandomUniform alphaLo alphaHi u ∧
    npRandomUniform alphaLo alphaHi u ≤ alphaHi := by
  have hpi := Real.pi_pos
  refine ⟨rfl, ?_, ?_⟩ <;> simp [npRandomUniform, alphaLo, alphaHi] <;> nlinarith

/-- Witness for the amended claim C3 at the concrete draw 1/2 and batch size 3. -/
theorem C3_per_invocation_witness :
    (0 : ℝ) ≤ 1 / 2 ∧ (1 / 2 : ℝ) ≤ 1 ∧
    (fixed_param_range_alpha (1 / 2) 3 =
        List.replicate 3 (npRandomUniform alphaLo alphaHi (1 / 2)) ∧
      alphaLo ≤ npRandomUniform alphaLo alphaHi (1 / 2) ∧
      npRandomUniform alphaLo alphaHi (1 / 2) ≤ alphaHi) :=
  ⟨by norm_num, by norm_num, C3_per_invocation (1 / 2) (by norm_num) (by norm_num) 3⟩

/-- Claim C4 counterexample: at the trailing edge of the obstacle (x = 0) the
wake-line target for `v` evaluates to 0 and not to the free-stream value
`10*sin(alpha)` (shown at alpha = pi/18, where `10*sin(alpha)` is positive);
the claim has the two ends of the blend swapped. -/
theorem C4_counterexample :
    Expr.eval (envXY 0 0 (Real.pi / 18)) wake_v = 0 ∧
    Expr.eval (envXY 0 0 (Real.pi / 18)) wake_v ≠ 10 * Real.sin (Real.pi / 18) := by
  have h0 : Expr.eval (envXY 0 0 (Real.pi / 18)) wake_v = 0 := by
    simp [wake_v, u_y, wakeBlend, Expr.eval, envXY]
  have hsin : 0 < Real.sin (Real.pi / 18) := by
    apply Real.sin_pos_of_pos_of_lt_pi
    · positivity
    · have := Real.pi_pos
      linarith
  refine ⟨h0, ?_⟩
  rw [h0]
  intro h
  nlinarith

/-- Claim C4 amended: the wake-line target for `v` is the linear blend
`10*sin(alpha) * x/(3*obstacle_length)`, equal to 0 at the trailing edge
`x = 0` and to the free-stream value `10*sin(alpha)` at the outlet-side end
`x = 3*obstacle_length` of the wake line (which, after the 90 degree rotation,
runs from the trailing edge `(0,0)` to `(3*obstacle_length, 0)`); both the
`u` and the `v` term carry weight 100. -/
theorem C4_wake_blend :
    List.lookup "wakeLine" PotentialTrain_domains = some (SubDomain.boundary wakeLine) ∧
    wakeLine.outvar_sympy = [("u", u_x), ("v", wake_v)] ∧
    wakeLine.lambda_sympy = [("lambda_u", Weight.num 100), ("lambda_v", Weight.num 100)] ∧
    (∀ xv av : ℝ, Expr.eval (envXY xv 0 av) wake_v
        = 10 * Real.sin av * (xv / (3 * (obstacle_length : ℝ)))) ∧
    (∀ av : ℝ, Expr.eval (envXY 0 0 av) wake_v = 0) ∧
    (∀ av : ℝ, Expr.eval (envXY (3 * (obstacle_length : ℝ)) 0 av) wake_v
        = 10 * Real.sin av) ∧
    rotatePoint (Real.pi / 2) (0, -(3 * (obstacle_length : ℝ)))
      = (3 * (obstacle_length : ℝ), 0) ∧
    rotatePoint (Real.pi / 2) (0, 0) = (0, 0) := by
  refine ⟨rfl, rfl, rfl, ?_, ?_, ?_, ?_, ?_⟩
  · intro xv av
    simp [wake_v, u_y, wakeBlend, Expr.eval, envXY]
  · intro av
    simp [wake_v, u_y, wakeBlend, Expr.eval, envXY]
  · intro av
    simp [wake_v, u_y, wakeBlend, Expr.eval, envXY]
    norm_num [obstacle_length]
  · simp [rotatePoint, Real.cos_pi_div_two, Real.sin_pi_div_two]
  · simp [rotatePoint]

/-- Claim C9: for all constants `a`, `b` with `a = -b`, substituting the field
`phi = a*x^2 + b*y^2` into the `Poisson_2D` residual of the equation system
yields an expression that evaluates to zero in every environment. -/
theorem C9_harmonic_quadratic (a b : ℚ) (hab : a = -b) (env : String → ℝ) :
    Expr.eval env (Expr.substPhi (phiQuad a b) poissonResidual) = 0 := by
  subst hab
  simp [poissonResidual, Poisson_2D_equations, phiE, phiQuad, Expr.substPhi,
    Expr.diff, Expr.dependsOn, Expr.eval, List.lookup]

/-- Witness for claim C9 at `a = 1`, `b = -1` and the zero environment. -/
theorem C9_harmonic_quadratic_witness :
    (1 : ℚ) = -(-1 : ℚ) ∧
    Expr.eval (fun _ => 0) (Expr.substPhi (phiQuad 1 (-1)) poissonResidual) = 0 :=
  ⟨by norm_num, C9_harmonic_quadratic 1 (-1) (by norm_num) (fun _ => 0)⟩

/-- Rational bracketing of the angle `pi/18` (10 degrees in radians). -/
lemma pi_div_18_bounds : (0.1745328 : ℝ) < Real.pi / 18 ∧ Real.pi / 18 < 0.1745330 := by
  have h1 := Real.pi_gt_d6
  have h2 := Real.pi_lt_d6
  constructor <;> norm_num <;> linarith

/-- Numeric approximation: `10*cos(pi/18)` is within 1/1000 of 9.8481. -/
lemma ten_cos_pi_div_18_near : |10 * Real.cos (Real.pi / 18) - 9.8481| < 1 / 1000 := by
  obtain ⟨hlo, hhi⟩ := pi_div_18_bounds
  have habs : |Real.pi / 18| ≤ 1 := by rw [abs_le]; constructor <;> linarith
  have hb := Real.cos_bound habs
  rw [abs_le] at hb
  have ht2lo : (0.0304616 : ℝ) < (Real.pi / 18) ^ 2 := by nlinarith
  have ht2hi : (Real.pi / 18) ^ 2 < (0.0304618 : ℝ) := by nlinarith
  have htabs : |Real.pi / 18| = Real.pi / 18 := abs_of_pos (by linarith)
  have ht4 : |Real.pi / 18| ^ 4 ≤ (0.000928 : ℝ) := by
    rw [htabs]
    nlinarith
  rw [abs_lt]
  constructor <;> nlinarith [hb.1, hb.2]

/-- Numeric approximation: `10*sin(pi/18)` is within 1/1000 of 1.7365. -/
lemma ten_sin_pi_div_18_near : |10 * Real.sin (Real.pi / 18) - 1.7365| < 1 / 1000 := by
  obtain ⟨hlo, hhi⟩ := pi_div_18_bounds
  have habs : |Real.pi / 18| ≤ 1 := by rw [abs_le]; constructor <;> linarith
  have hb := Real.sin_bound habs
  rw [abs_le] at hb
  have ht2lo : (0.0304616 : ℝ) < (Real.pi / 18) ^ 2 := by nlinarith
  have ht2hi : (Real.pi / 18) ^ 2 < (0.0304618 : ℝ) := by nlinarith
  have ht3lo : (0.0053165 : ℝ) < (Real.pi / 18) ^ 3 := by nlinarith
  have ht3hi : (Real.pi / 18) ^ 3 < (0.0053167 : ℝ) := by nlinarith
  have htabs : |Real.pi / 18| = Real.pi / 18 := abs_of_pos (by linarith)
  have ht4 : |Real.pi / 18| ^ 4 ≤ (0.000928 : ℝ) := by
    rw [htabs]
    nlinarith
  rw [abs_lt]
  constructor <;> nlinarith [hb.1, hb.2]

/-- Claim C6: `Inlet`, `Outlet` and `BottomWall` all set the targets
`u = 10*cos(alpha)` and `v = 10*sin(alpha)`; at `alpha = 0` these evaluate to
`(10, 0)` and at `alpha = pi/18` to within 1/1000 of `(9.8481, 1.7365)`. -/
theorem C6_farfield_targets :
    List.lookup "Inlet" PotentialTrain_domains = some (SubDomain.boundary inletBC) ∧
    List.lookup "Outlet" PotentialTrain_domains = some (SubDomain.boundary outletBC) ∧
    List.lookup "BottomWall" PotentialTrain_domains = some (SubDomain.boundary bottomWall) ∧
    inletBC.outvar_sympy = [("u", u_x), ("v", u_y)] ∧
    outletBC.outvar_sympy = [("u", u_x), ("v", u_y)] ∧
    bottomWall.outvar_sympy = [("u", u_x), ("v", u_y)] ∧
    (∀ env : String → ℝ, Expr.eval env u_x = 10 * Real.cos (env "alpha")) ∧
    (∀ env : String → ℝ, Expr.eval env u_y = 10 * Real.sin (env "alpha")) ∧
    Expr.eval (envXY 0 0 0) u_x = 10 ∧
    Expr.eval (envXY 0 0 0) u_y = 0 ∧
    |Expr.eval (envXY 0 0 (Real.pi / 18)) u_x - 9.8481| < 1 / 1000 ∧
    |Expr.eval (envXY 0 0 (Real.pi / 18)) u_y - 1.7365| < 1 / 1000 := by
  refine ⟨rfl, rfl, rfl, rfl, rfl, rfl, ?_, ?_, ?_, ?_, ?_, ?_⟩
  · intro env
    simp [Expr.eval, u_x]
  · intro env
    simp [Expr.eval, u_y]
  · simp [Expr.eval, u_x, envXY]
  · simp [Expr.eval, u_y, envXY]
  · have h := ten_cos_pi_div_18_near
    simpa [Expr.eval, u_x, envXY] using h
  · have h := ten_sin_pi_div_18_near
    simpa [Expr.eval, u_y, envXY] using h

end PotentialFlow2D
